import Mathlib

/-!
Verification of the Isolation heuristic evaluation layer.

The heuristics (`Heuristic.score`, `Heuristic.action_mobility`,
`Heuristic.the_super_duper_hugo_heuristic`, `Heuristic.action_focus`) are a
shallow embedding of `heuristics.py`; `argmax` embeds
`isolation_utilities.py` together with a small model of Python 3 dynamic
values and comparison, because the baseline implementation applies the
scoring function to the whole sequence, so its behaviour depends on dynamic
typing. The game-state interface (`GameState`) is the external board
collaborator, which is not part of the evaluated sources; it is modelled
from the specification of its interface.

Python floats are modelled as exact rationals extended with the two
infinities; every arithmetic operation performed by the evaluated code on
its reachable inputs is exact, so no rounding behaviour is lost. Python
exceptions are modelled as values of an error type, and fallible functions
return `Except`.
-/

set_option autoImplicit false
set_option linter.unusedVariables false

/-- Modelled from the spec: a player is an opaque identity token
distinguishing the two participants of the game, used only for equality
comparison and as a key into state-dependent queries. -/
abbrev Player := Fin 2

/-- Modelled from the spec: a move is an opaque action value whose structure
the evaluator never interprets; it only counts and enumerates moves. -/
abbrev Move := Nat × Nat

/-- Modelled from the spec: a board cell, an element of the set returned by
the blank-space query; the evaluator only counts them. -/
abbrev Cell := Nat × Nat

/-- Modelled from the spec: the immutable data of one game-state snapshot as
exposed through the external interface: board dimensions, blocked/blank
cells, terminal predicates, per-player legal moves, the opponent
query and the active/inactive bookkeeping. The `isolation.Board` class
implementing it is an external collaborator and is not among the evaluated
sources. -/
structure StateCore where
  width : Nat
  height : Nat
  blank_spaces : List Cell
  is_loser : Player → Bool
  is_winner : Player → Bool
  legal_moves : Player → List Move
  opponent : Player → Player
  active_player : Player
  inactive_player : Player

/-- Modelled from the spec: a game state is a snapshot together with the
forecasting query producing a hypothetical successor state for each move.
A `leaf` carries no successors and stands for a state whose forecasts are
never inspected; its forecast query returns the state itself. -/
inductive GameState where
  | leaf (core : StateCore)
  | node (core : StateCore) (forecast : Move → GameState)

/-- The snapshot data of a state. -/
def GameState.core : GameState → StateCore
  | .leaf c => c
  | .node c _ => c

/-- Modelled from the spec: board width accessor. -/
def GameState.width (s : GameState) : Nat := s.core.width

/-- Modelled from the spec: board height accessor. -/
def GameState.height (s : GameState) : Nat := s.core.height

/-- Modelled from the spec: `get_blank_spaces()` returns the collection of
blank cells of the board. -/
def GameState.get_blank_spaces (s : GameState) : List Cell := s.core.blank_spaces

/-- Modelled from the spec: `is_loser(player)` terminal predicate. -/
def GameState.is_loser (s : GameState) (p : Player) : Bool := s.core.is_loser p

/-- Modelled from the spec: `is_winner(player)` terminal predicate. -/
def GameState.is_winner (s : GameState) (p : Player) : Bool := s.core.is_winner p

/-- Modelled from the spec: `active_player` accessor, the player to move. -/
def GameState.active_player (s : GameState) : Player := s.core.active_player

/-- Modelled from the spec: `inactive_player` accessor, the other
participant. -/
def GameState.inactive_player (s : GameState) : Player := s.core.inactive_player

/-- Modelled from the spec: `get_legal_moves(player)`; the player argument
defaults to the active player when omitted, as in the board interface. -/
def GameState.get_legal_moves (s : GameState) (p : Player := s.active_player) :
    List Move := s.core.legal_moves p

/-- Modelled from the spec: `get_opponent(player)` returns the opponent of
the given player. -/
def GameState.get_opponent (s : GameState) (p : Player) : Player := s.core.opponent p

/-- Modelled from the spec: `forecast_move(move)` is pure and returns a new
state with the active player advanced; on a `leaf` fixture it returns the
state itself (never inspected by the evaluated code on the states where the
claims are settled). -/
def GameState.forecast_move : GameState → Move → GameState
  | .leaf c, _ => .leaf c
  | .node _ f, m => f m

/-- The data-model invariant of the spec: a state is either non-terminal or
has exactly one winner and one loser, so no participant is simultaneously
winner and loser. -/
def TerminalExclusive (s : GameState) : Prop :=
  ∀ p : Player, ¬(s.is_loser p = true ∧ s.is_winner p = true)

instance (s : GameState) : Decidable (TerminalExclusive s) := by
  unfold TerminalExclusive; infer_instance

/-- The two-player reading of the opponent query: the opponent of each
participant is the other participant. -/
def TwoPlayerOpponents (s : GameState) : Prop :=
  s.get_opponent s.inactive_player = s.active_player ∧
  s.get_opponent s.active_player = s.inactive_player

instance (s : GameState) : Decidable (TwoPlayerOpponents s) := by
  unfold TwoPlayerOpponents; infer_instance

/-- Errors. `keyError`, `zeroDivisionError`, `indexError` and `typeError`
model the Python built-in exceptions actually raised by the embedded code;
`unknownStrategyError`, `noLegalMovesError` and `emptySequenceError` are the
dedicated error classes named by the specification's error taxonomy, never
produced by the code and used only to compare the code against the spec. -/
inductive PyError where
  | keyError (key : String)
  | zeroDivisionError
  | indexError
  | typeError
  | unknownStrategyError (requested : String) (valid : List String)
  | noLegalMovesError
  | emptySequenceError
  deriving DecidableEq, Repr

/-- A Python float result of `score`: a finite value (modelled exactly as a
rational) or one of the two infinities. -/
inductive PyFloat where
  | negInf
  | val (q : ℚ)
  | posInf
  deriving DecidableEq, Repr

/-- The `Heuristic` object of `heuristics.py`: it retains the originating
game and player, which the current strategies do not read. -/
structure Heuristic where
  game : GameState
  player : Player

/-- Embeds `Heuristic.action_mobility` of `heuristics.py`: enumerate the
active player's legal moves, forecast each, take the maximum number of legal
moves left to the mover (the inactive player of the forecast state), and
divide by the number of legal moves; Python raises `ZeroDivisionError` when
there are no legal moves. -/
def Heuristic.action_mobility (self : Heuristic) (state : GameState) :
    Except PyError ℚ :=
  let legal_moves : List Move := state.get_legal_moves
  let states_one_step_ahead : List GameState :=
    legal_moves.map (fun move => state.forecast_move move)
  let best_moves_ahead : Nat := states_one_step_ahead.foldl
    (fun best future_state =>
      max best (future_state.get_legal_moves future_state.inactive_player).length) 0
  if legal_moves.length = 0 then .error .zeroDivisionError
  else .ok ((best_moves_ahead : ℚ) / (legal_moves.length : ℚ))

/-- Embeds `Heuristic.the_super_duper_hugo_heuristic` of `heuristics.py`:
`(player_moves - weight * opponent_moves) * filled_spaces`, where
`player_moves` counts the legal moves of the active player (the default of
`get_legal_moves`) and `opponent_moves` counts the legal moves of
`get_opponent(inactive_player)`. -/
def Heuristic.the_super_duper_hugo_heuristic (self : Heuristic)
    (state : GameState) (weight : ℚ := 5/2) : Except PyError ℚ :=
  let filled_spaces := (state.width * state.height : ℚ) -
    (state.get_blank_spaces.length : ℚ)
  let player_moves := (state.get_legal_moves.length : ℚ)
  let opponent_moves :=
    ((state.get_legal_moves (state.get_opponent state.inactive_player)).length : ℚ)
  .ok ((player_moves - weight * opponent_moves) * filled_spaces)

/-- Embeds `Heuristic.action_focus` of `heuristics.py`:
`1. - self.action_mobility(state)`; a Python exception raised by
`action_mobility` propagates. -/
def Heuristic.action_focus (self : Heuristic) (state : GameState) :
    Except PyError ℚ :=
  match self.action_mobility state with
  | .error e => .error e
  | .ok v => .ok (1 - v)

/-- The keys of the strategy dictionary built inside `Heuristic.score`. -/
def strategyNames : List String :=
  ["action_mobility", "action_focus", "the_super_duper_hugo_heuristic"]

/-- Embeds `Heuristic.score` of `heuristics.py`: build the strategy mapping,
return negative infinity if the player is a loser, positive infinity if the
player is a winner, and otherwise look the method up in the mapping and
apply it; a missing key is Python's `KeyError` carrying the requested
key. -/
def Heuristic.score (self : Heuristic) (state : GameState) (player : Player)
    (method : String := "action_mobility") : Except PyError PyFloat :=
  let methods : List (String × (GameState → Except PyError ℚ)) :=
    [("action_mobility", fun st => self.action_mobility st),
     ("action_focus", fun st => self.action_focus st),
     ("the_super_duper_hugo_heuristic", fun st => self.the_super_duper_hugo_heuristic st)]
  if state.is_loser player then .ok .negInf
  else if state.is_winner player then .ok .posInf
  else
    match methods.lookup method with
    | some f => (f state).map .val
    | none => .error (.keyError method)

/-- A dynamically typed Python value, as far as `argmax` manipulates them:
an integer or a (possibly nested) list. -/
inductive PyVal where
  | int (n : Int)
  | list (l : List PyVal)

mutual

/-- Structural (Python `==`) equality on dynamic values; across the two
kinds it is `false`, never an error, matching Python. -/
def PyVal.beq : PyVal → PyVal → Bool
  | .int a, .int b => a == b
  | .list as, .list bs => PyVal.beqList as bs
  | _, _ => false

/-- Elementwise equality of Python lists. -/
def PyVal.beqList : List PyVal → List PyVal → Bool
  | [], [] => true
  | a :: as, b :: bs => PyVal.beq a b && PyVal.beqList as bs
  | _, _ => false

end

mutual

theorem PyVal.beq_eq : ∀ a b : PyVal, PyVal.beq a b = true ↔ a = b
  | .int a, .int b => by simp [PyVal.beq]
  | .list as, .list bs => by simp [PyVal.beq, PyVal.beqList_eq as bs]
  | .int _, .list _ => by simp [PyVal.beq]
  | .list _, .int _ => by simp [PyVal.beq]

theorem PyVal.beqList_eq : ∀ as bs : List PyVal, PyVal.beqList as bs = true ↔ as = bs
  | [], [] => by simp [PyVal.beqList]
  | a :: as, b :: bs => by
      simp [PyVal.beqList, PyVal.beq_eq a b, PyVal.beqList_eq as bs]
  | [], _ :: _ => by simp [PyVal.beqList]
  | _ :: _, [] => by simp [PyVal.beqList]

end

instance : DecidableEq PyVal := fun a b => decidable_of_iff _ (PyVal.beq_eq a b)

mutual

/-- Python 3 `>` on dynamic values: integers compare numerically, lists
compare lexicographically, and a comparison between an integer and a list
raises `TypeError`. -/
def pyGt : PyVal → PyVal → Except PyError Bool
  | .int a, .int b => .ok (decide (b < a))
  | .list a, .list b => pyGtList a b
  | _, _ => .error .typeError

/-- Lexicographic `>` on Python lists: skip equal prefixes (Python tests
`==` first, which never raises across types), then compare the first
differing elements with `>`; a longer list beats its proper prefix. -/
def pyGtList : List PyVal → List PyVal → Except PyError Bool
  | _ :: _, [] => .ok true
  | [], _ => .ok false
  | a :: as, b :: bs => if a = b then pyGtList as bs else pyGt a b

end

/-- The loop `for i in seq` of `argmax` in `isolation_utilities.py`,
carrying the current `best` element and `best_score`. -/
def argmaxGo (fn : PyVal → PyVal) :
    List PyVal → PyVal → PyVal → Except PyError PyVal
  | [], best, _ => .ok best
  | i :: rest, best, best_score =>
    let n_score := fn i
    match pyGt n_score best_score with
    | .error e => .error e
    | .ok true => argmaxGo fn rest i n_score
    | .ok false => argmaxGo fn rest best best_score

/-- Embeds `argmax` of `isolation_utilities.py` verbatim: `best = seq[0]`
(Python raises `IndexError` on an empty sequence), `best_score = fn(seq)` —
the scoring function applied to the whole sequence, exactly as in the
source — then the incremental loop over all of `seq`. -/
def argmax (seq : List PyVal) (fn : PyVal → PyVal) : Except PyError PyVal :=
  match seq with
  | [] => .error .indexError
  | s0 :: _ => argmaxGo fn seq s0 (fn (.list seq))

/-- A terminal-free snapshot used as a forecast state in fixtures: the mover
(player 0, now inactive) is left with `n` follow-up moves. -/
def moverLeft (n : Nat) : GameState :=
  .leaf
    { width := 3, height := 3, blank_spaces := []
      is_loser := fun _ => false, is_winner := fun _ => false
      legal_moves := fun p => if p = 0 then (List.range n).map (fun i => (i, 0)) else []
      opponent := fun p => if p = 0 then 1 else 0
      active_player := 1, inactive_player := 0 }

/-- A non-terminal state where the active player 0 has three legal moves
whose forecasts leave the mover with 2, 2 and 3 follow-up moves. -/
def mobilityState : GameState :=
  .node
    { width := 3, height := 3, blank_spaces := []
      is_loser := fun _ => false, is_winner := fun _ => false
      legal_moves := fun p => if p = 0 then [(0, 0), (0, 1), (0, 2)] else []
      opponent := fun p => if p = 0 then 1 else 0
      active_player := 0, inactive_player := 1 }
    (fun m => if m = (0, 2) then moverLeft 3 else moverLeft 2)

/-- A non-terminal state where the active player has no legal move at
all. -/
def stuckState : GameState :=
  .leaf
    { width := 3, height := 3, blank_spaces := []
      is_loser := fun _ => false, is_winner := fun _ => false
      legal_moves := fun _ => []
      opponent := fun p => if p = 0 then 1 else 0
      active_player := 0, inactive_player := 1 }

/-- A terminal state: player 0 has lost (and has no legal move), player 1
has won. -/
def terminalState : GameState :=
  .leaf
    { width := 3, height := 3, blank_spaces := []
      is_loser := fun p => decide (p = 0), is_winner := fun p => decide (p = 1)
      legal_moves := fun _ => []
      opponent := fun p => if p = 0 then 1 else 0
      active_player := 0, inactive_player := 1 }

/-- A non-terminal state with 8 filled spaces on a 3×3 board where the
active player 0 has 4 legal moves and the inactive player 1 has 2. -/
def differentialState : GameState :=
  .leaf
    { width := 3, height := 3, blank_spaces := [(2, 2)]
      is_loser := fun _ => false, is_winner := fun _ => false
      legal_moves := fun p => if p = 0 then [(0, 0), (0, 1), (0, 2), (1, 0)] else [(1, 1), (1, 2)]
      opponent := fun p => if p = 0 then 1 else 0
      active_player := 0, inactive_player := 1 }

/-- The per-forecast follow-up move counts inspected by `action_mobility`:
for each legal move of the active player, the number of legal moves the
mover (the inactive player of the forecast state) is left with. -/
def forecastCounts (s : GameState) : List Nat :=
  (s.get_legal_moves.map (fun move => s.forecast_move move)).map
    (fun fs => (fs.get_legal_moves fs.inactive_player).length)

theorem le_foldl_max_init (l : List Nat) (a : Nat) : a ≤ l.foldl max a := by
  induction l generalizing a with
  | nil => exact Nat.le_refl a
  | cons b t ih => exact Nat.le_trans (Nat.le_max_left a b) (ih (max a b))

theorem le_foldl_max {l : List Nat} {c : Nat} (a : Nat) (hc : c ∈ l) :
    c ≤ l.foldl max a := by
  induction l generalizing a with
  | nil => cases hc
  | cons b t ih =>
    rw [List.foldl_cons]
    rcases List.mem_cons.mp hc with h | h
    · subst h
      exact Nat.le_trans (Nat.le_max_right a c) (le_foldl_max_init t (max a c))
    · exact ih (max a b) h

theorem foldl_max_mem (l : List Nat) (a : Nat) : l.foldl max a ∈ l ∨ l.foldl max a = a := by
  induction l generalizing a with
  | nil => exact Or.inr rfl
  | cons b t ih =>
    rw [List.foldl_cons]
    rcases ih (max a b) with h | h
    · exact Or.inl (List.mem_cons_of_mem b h)
    · rcases max_choice a b with hm | hm
      · exact Or.inr (by rw [h, hm])
      · exact Or.inl (by rw [h, hm]; exact List.mem_cons_self b t)

theorem foldl_max_zero_mem {l : List Nat} (h : l ≠ []) : l.foldl max 0 ∈ l := by
  rcases foldl_max_mem l 0 with hm | hm
  · exact hm
  · match l, h with
    | c :: t, _ =>
      have hc : c ≤ (c :: t).foldl max 0 := le_foldl_max 0 (List.mem_cons_self c t)
      rw [hm] at hc ⊢
      exact Nat.le_zero.mp hc ▸ List.mem_cons_self c t

deriving instance DecidableEq for Except

/-- Claim C1: on a well-formed state (no participant is simultaneously
winner and loser), for every registered strategy identifier, `score` returns
negative infinity whenever the state marks the player as a loser and
positive infinity whenever it marks the player as a winner; the terminal
result does not depend on the selected strategy. -/
theorem C1_terminal_shortcut (h : Heuristic) (s : GameState) (p : Player) (m : String)
    (hinv : TerminalExclusive s) (hm : m ∈ strategyNames) :
    (s.is_loser p = true → h.score s p m = .ok .negInf) ∧
    (s.is_winner p = true → h.score s p m = .ok .posInf) := by
  constructor
  · intro hl
    simp [Heuristic.score, hl]
  · intro hw
    cases hb : s.is_loser p with
    | false => simp [Heuristic.score, hb, hw]
    | true => exact absurd ⟨hb, hw⟩ (hinv p)

/-- Claim C1, witness: on the concrete terminal state, where the strategy
itself would raise (the loser has no legal move), `score` still returns
negative infinity for the loser and the winner clause holds vacuously
checked at the winning participant below. -/
theorem C1_terminal_shortcut_witness :
    TerminalExclusive terminalState ∧ "action_mobility" ∈ strategyNames ∧
    ((terminalState.is_loser 0 = true →
      Heuristic.score ⟨terminalState, 0⟩ terminalState 0 "action_mobility" = .ok .negInf) ∧
     (terminalState.is_winner 0 = true →
      Heuristic.score ⟨terminalState, 0⟩ terminalState 0 "action_mobility" = .ok .posInf)) :=
  ⟨by decide, by decide,
   C1_terminal_shortcut ⟨terminalState, 0⟩ terminalState 0 "action_mobility"
     (by decide) (by decide)⟩

/-- Claim C2: on every state whose active player has at least one legal
move, `action_mobility` returns the maximum, over the one-ply forecast
states, of the number of legal moves left to the mover (the inactive player
of the forecast state), divided by the number of the active player's legal
moves; the value is an exact unnormalized ratio. -/
theorem C2_action_mobility_max_ratio (h : Heuristic) (s : GameState)
    (hne : s.get_legal_moves ≠ []) :
    ∃ M : Nat, M ∈ forecastCounts s ∧ (∀ c ∈ forecastCounts s, c ≤ M) ∧
      h.action_mobility s = .ok ((M : ℚ) / (s.get_legal_moves.length : ℚ)) := by
  have h0 : ¬(s.get_legal_moves.length = 0) := fun hx => hne (List.length_eq_zero.mp hx)
  have hcne : forecastCounts s ≠ [] := by
    simp only [forecastCounts, ne_eq, List.map_eq_nil_iff]
    exact hne
  refine ⟨(forecastCounts s).foldl max 0, foldl_max_zero_mem hcne,
    fun c hc => le_foldl_max 0 hc, ?_⟩
  have hM : (forecastCounts s).foldl max 0 =
      (s.get_legal_moves.map (fun move => s.forecast_move move)).foldl
        (fun best future_state =>
          max best (future_state.get_legal_moves future_state.inactive_player).length) 0 := by
    unfold forecastCounts
    rw [List.foldl_map]
  rw [hM]
  simp only [Heuristic.action_mobility]
  rw [if_neg h0]

/-- Claim C2, witness: the concrete scenario of the specification — three
legal moves whose forecasts leave the mover with 2, 2 and 3 follow-up
moves — where the maximal count is 3 and the returned ratio is
`3/3 = 1.0`. -/
theorem C2_action_mobility_max_ratio_witness :
    mobilityState.get_legal_moves ≠ [] ∧
    (∃ M : Nat, M ∈ forecastCounts mobilityState ∧
      (∀ c ∈ forecastCounts mobilityState, c ≤ M) ∧
      Heuristic.action_mobility ⟨mobilityState, 0⟩ mobilityState =
        .ok ((M : ℚ) / (mobilityState.get_legal_moves.length : ℚ))) ∧
    Heuristic.action_mobility ⟨mobilityState, 0⟩ mobilityState = .ok 1 :=
  ⟨by decide, C2_action_mobility_max_ratio ⟨mobilityState, 0⟩ mobilityState (by decide),
   by
    simp +decide [Heuristic.action_mobility, mobilityState, moverLeft,
      GameState.get_legal_moves, GameState.core, GameState.active_player,
      GameState.inactive_player, GameState.forecast_move]⟩

/-- Claim C3 (code behaviour at the failing input): on a state with 8
filled spaces, 4 active-player moves and 2 inactive-player moves, the
weighted-mobility strategy returns `(4 - 2.5·4)·8 = -48.0` — it counts the
moves of `get_opponent(inactive_player)`, i.e. the active player again —
and not the `-8.0` the claim requires. -/
theorem C3_weighted_differential_code_behavior :
    Heuristic.the_super_duper_hugo_heuristic ⟨differentialState, 0⟩ differentialState =
      .ok (-48) ∧
    Heuristic.the_super_duper_hugo_heuristic ⟨differentialState, 0⟩ differentialState ≠
      .ok (-8) := by
  have h : Heuristic.the_super_duper_hugo_heuristic ⟨differentialState, 0⟩ differentialState =
      .ok (-48) := by
    simp [Heuristic.the_super_duper_hugo_heuristic, differentialState,
      GameState.get_legal_moves, GameState.core, GameState.active_player,
      GameState.inactive_player, GameState.get_opponent, GameState.get_blank_spaces,
      GameState.width, GameState.height]
    norm_num
  refine ⟨h, ?_⟩
  rw [h]
  simp only [ne_eq, Except.ok.injEq]
  norm_num

/-- Claim C4 (code behaviour at the failing input): `argmax` initializes
`best_score = fn(seq)` — the scoring function applied to the whole
sequence — so with the identity scoring function every comparison is an
`int > list` comparison and Python 3 raises `TypeError` on `[3, 7, 2]` (and
even on `[5]`), instead of returning 7 (resp. 5); on the empty sequence
`seq[0]` raises `IndexError`, not a dedicated empty-sequence error. -/
theorem C4_argmax_code_behavior :
    argmax [PyVal.int 3, PyVal.int 7, PyVal.int 2] id = .error .typeError ∧
    argmax [PyVal.int 5] id = .error .typeError ∧
    argmax [] id = .error .indexError :=
  ⟨rfl, rfl, rfl⟩

/-- Claim C5: on every state whose active player has at least one legal
move, `action_mobility` succeeds with some value `q` and `action_focus`
returns exactly `1 - q`; since `q` is not bounded by 1, the result can be
negative. -/
theorem C5_action_focus_complement (h : Heuristic) (s : GameState)
    (hne : s.get_legal_moves ≠ []) :
    ∃ q : ℚ, h.action_mobility s = .ok q ∧ h.action_focus s = .ok (1 - q) := by
  have h0 : ¬(s.get_legal_moves.length = 0) := fun hx => hne (List.length_eq_zero.mp hx)
  have hm : h.action_mobility s =
      .ok ((((s.get_legal_moves.map (fun move => s.forecast_move move)).foldl
          (fun best future_state =>
            max best (future_state.get_legal_moves future_state.inactive_player).length) 0 : ℕ) : ℚ) /
        (s.get_legal_moves.length : ℚ)) := by
    simp only [Heuristic.action_mobility]
    rw [if_neg h0]
  exact ⟨_, hm, by simp only [Heuristic.action_focus, hm]⟩

/-- Claim C5, witness: on the concrete three-move state, `action_mobility`
returns 1 and `action_focus` returns `1 - 1 = 0`. -/
theorem C5_action_focus_complement_witness :
    mobilityState.get_legal_moves ≠ [] ∧
    (∃ q : ℚ, Heuristic.action_mobility ⟨mobilityState, 0⟩ mobilityState = .ok q ∧
      Heuristic.action_focus ⟨mobilityState, 0⟩ mobilityState = .ok (1 - q)) :=
  ⟨by decide, C5_action_focus_complement ⟨mobilityState, 0⟩ mobilityState (by decide)⟩

/-- Claim C6 (amended): dispatching `score` on a non-terminal state with an
identifier outside the registered set fails with Python's `KeyError`
carrying the requested identifier (not a dedicated error carrying the set of
valid identifiers), and never falls back to a default strategy; the function
is pure, so no partial state change occurs. -/
theorem C6_unknown_strategy_keyerror (h : Heuristic) (s : GameState) (p : Player)
    (m : String) (hl : s.is_loser p = false) (hw : s.is_winner p = false)
    (hm : m ∉ strategyNames) :
    h.score s p m = .error (.keyError m) := by
  simp only [strategyNames, List.mem_cons, List.not_mem_nil, or_false, not_or] at hm
  obtain ⟨h1, h2, h3⟩ := hm
  have e1 : (m == "action_mobility") = false := beq_eq_false_iff_ne.mpr h1
  have e2 : (m == "action_focus") = false := beq_eq_false_iff_ne.mpr h2
  have e3 : (m == "the_super_duper_hugo_heuristic") = false := beq_eq_false_iff_ne.mpr h3
  simp [Heuristic.score, hl, hw, List.lookup, e1, e2, e3]

/-- Claim C6, witness: the amended behaviour at the concrete non-terminal
state and the unregistered identifier `"bogus"`. -/
theorem C6_unknown_strategy_keyerror_witness :
    stuckState.is_loser 0 = false ∧ stuckState.is_winner 0 = false ∧
    "bogus" ∉ strategyNames ∧
    Heuristic.score ⟨stuckState, 0⟩ stuckState 0 "bogus" = .error (.keyError "bogus") :=
  ⟨by decide, by decide, by decide,
   C6_unknown_strategy_keyerror ⟨stuckState, 0⟩ stuckState 0 "bogus"
     (by decide) (by decide) (by decide)⟩

/-- Claim C6, counterexample to the claim as stated: at the concrete
non-terminal state the code raises `KeyError("bogus")`, which is not an
error value naming both the requested identifier and the set of valid
identifiers as the claim requires. -/
theorem C6_unknown_strategy_counterexample :
    Heuristic.score ⟨stuckState, 0⟩ stuckState 0 "bogus" = .error (.keyError "bogus") ∧
    (Except.error (PyError.keyError "bogus") : Except PyError PyFloat) ≠
      .error (.unknownStrategyError "bogus" strategyNames) :=
  ⟨by decide, by decide⟩

/-- Claim C7 (amended): invoking `action_mobility` on a state whose active
player has zero legal moves fails — the division by the number of legal
moves raises Python's `ZeroDivisionError` — rather than returning a value,
and the error is surfaced to the caller, not swallowed. -/
theorem C7_no_moves_zero_division (h : Heuristic) (s : GameState)
    (hempty : s.get_legal_moves = []) :
    h.action_mobility s = .error .zeroDivisionError := by
  simp [Heuristic.action_mobility, hempty]

/-- Claim C7, witness: the amended behaviour at the concrete zero-move
state. -/
theorem C7_no_moves_zero_division_witness :
    stuckState.get_legal_moves = [] ∧
    Heuristic.action_mobility ⟨stuckState, 0⟩ stuckState = .error .zeroDivisionError :=
  ⟨by decide, C7_no_moves_zero_division ⟨stuckState, 0⟩ stuckState (by decide)⟩

/-- Claim C7, counterexample to the claim as stated: at the concrete
zero-move state the failure is a `ZeroDivisionError`, not a dedicated
no-legal-moves error. -/
theorem C7_no_moves_counterexample :
    Heuristic.action_mobility ⟨stuckState, 0⟩ stuckState = .error .zeroDivisionError ∧
    Heuristic.action_mobility ⟨stuckState, 0⟩ stuckState ≠ .error .noLegalMovesError :=
  ⟨by decide, by decide⟩

/-- Claim C8: on a state that is neither a win nor a loss for either of the
two given participants, `score` returns the same result whichever of them is
passed as the player argument, for every registered strategy identifier: the
player argument only feeds the terminal checks, and the strategies read the
player identity through the state's active/inactive accessors only. -/
theorem C8_player_independence (h : Heuristic) (s : GameState) (m : String)
    (p q : Player) (hm : m ∈ strategyNames)
    (hpl : s.is_loser p = false) (hpw : s.is_winner p = false)
    (hql : s.is_loser q = false) (hqw : s.is_winner q = false) :
    h.score s p m = h.score s q m := by
  simp [Heuristic.score, hpl, hpw, hql, hqw]

/-- Claim C8, witness: on the concrete non-terminal state the score for
participant 0 equals the score for participant 1. -/
theorem C8_player_independence_witness :
    "action_mobility" ∈ strategyNames ∧
    mobilityState.is_loser 0 = false ∧ mobilityState.is_winner 0 = false ∧
    mobilityState.is_loser 1 = false ∧ mobilityState.is_winner 1 = false ∧
    Heuristic.score ⟨mobilityState, 0⟩ mobilityState 0 "action_mobility" =
      Heuristic.score ⟨mobilityState, 0⟩ mobilityState 1 "action_mobility" :=
  ⟨by decide, by decide, by decide, by decide, by decide,
   C8_player_independence ⟨mobilityState, 0⟩ mobilityState "action_mobility" 0 1
     (by decide) (by decide) (by decide) (by decide) (by decide)⟩

/-- Claim C9: on a well-formed terminal state the strategy dictionary is
never consulted: `score` returns negative infinity for a loser and positive
infinity for a winner for any method string whatsoever, registered or not,
so no unknown-strategy failure can occur there. -/
theorem C9_terminal_bypasses_dispatch (h : Heuristic) (s : GameState) (p : Player)
    (m : String) (hinv : TerminalExclusive s) :
    (s.is_loser p = true → h.score s p m = .ok .negInf) ∧
    (s.is_winner p = true → h.score s p m = .ok .posInf) := by
  constructor
  · intro hl
    simp [Heuristic.score, hl]
  · intro hw
    cases hb : s.is_loser p with
    | false => simp [Heuristic.score, hb, hw]
    | true => exact absurd ⟨hb, hw⟩ (hinv p)

/-- Claim C9, witness: on the concrete terminal state with the unregistered
method string `"bogus"`, the loser still gets negative infinity (and the
winner clause for participant 1 positive infinity, via a second
application at the same input). -/
theorem C9_terminal_bypasses_dispatch_witness :
    TerminalExclusive terminalState ∧
    ((terminalState.is_loser 0 = true →
      Heuristic.score ⟨terminalState, 0⟩ terminalState 0 "bogus" = .ok .negInf) ∧
     (terminalState.is_winner 0 = true →
      Heuristic.score ⟨terminalState, 0⟩ terminalState 0 "bogus" = .ok .posInf)) ∧
    ((terminalState.is_loser 1 = true →
      Heuristic.score ⟨terminalState, 0⟩ terminalState 1 "bogus" = .ok .negInf) ∧
     (terminalState.is_winner 1 = true →
      Heuristic.score ⟨terminalState, 0⟩ terminalState 1 "bogus" = .ok .posInf)) :=
  ⟨by decide,
   C9_terminal_bypasses_dispatch ⟨terminalState, 0⟩ terminalState 0 "bogus" (by decide),
   C9_terminal_bypasses_dispatch ⟨terminalState, 0⟩ terminalState 1 "bogus" (by decide)⟩

/-- Claim C10: in the weighted-mobility strategy the counted opponent is
`get_opponent(inactive_player)`, which in a two-player game is the active
player itself; since the player-moves query defaults to the active player,
`opponent_moves` equals `player_moves` and the returned value is
`(1 - weight) * player_moves * filled_spaces`. -/
theorem C10_opponent_moves_equal_player_moves (h : Heuristic) (s : GameState)
    (w : ℚ) (hopp : TwoPlayerOpponents s) :
    (s.get_legal_moves (s.get_opponent s.inactive_player)).length =
      s.get_legal_moves.length ∧
    h.the_super_duper_hugo_heuristic s w =
      .ok ((1 - w) * (s.get_legal_moves.length : ℚ) *
        ((s.width * s.height : ℚ) - (s.get_blank_spaces.length : ℚ))) := by
  obtain ⟨h1, h2⟩ := hopp
  constructor
  · rw [h1]
  · simp only [Heuristic.the_super_duper_hugo_heuristic, h1]
    exact congrArg Except.ok (by ring)

/-- Claim C10, witness: on the concrete state with 8 filled spaces and 4
active-player moves and the default weight `2.5`, the opponent-move count
equals the player-move count and the value is
`(1 - 2.5) * 4 * 8 = -48`. -/
theorem C10_opponent_moves_equal_player_moves_witness :
    TwoPlayerOpponents differentialState ∧
    ((differentialState.get_legal_moves
        (differentialState.get_opponent differentialState.inactive_player)).length =
      differentialState.get_legal_moves.length ∧
     Heuristic.the_super_duper_hugo_heuristic ⟨differentialState, 0⟩ differentialState (5/2) =
      .ok ((1 - (5/2 : ℚ)) * (differentialState.get_legal_moves.length : ℚ) *
        ((differentialState.width * differentialState.height : ℚ) -
          (differentialState.get_blank_spaces.length : ℚ)))) :=
  ⟨by decide,
   C10_opponent_moves_equal_player_moves ⟨differentialState, 0⟩ differentialState (5/2)
     (by decide)⟩
